import Mathlib

/-!
Shallow embedding of the mixyt daemon core (src/daemon/mod.rs, src/models/mod.rs,
src/ipc/mod.rs, src/audio/mod.rs) and proofs about its playback state machine
and IPC codec.

Machine integers: `u8`/`u64`/`usize` values are modelled as `Nat`; none of the
operations embedded here overflow (indices stay below queue length, and the
only arithmetic is `%`, `min` and `+1`/`-1` on in-range values), so no explicit
`% 2^w` is needed.  External identifier types (`Uuid`, `DateTime<Utc>`) are
carried as their wire-string form, which is how they cross the IPC boundary.
-/

namespace Mixyt

/-- Mirror of `Track` from src/models/mod.rs.  `id : Uuid` and `added_at : DateTime<Utc>`
are modelled by their serialized string forms. -/
structure Track where
  id : String
  url : String
  title : String
  «alias» : Option String
  duration : Nat
  added_at : String
  file_path : String
  available : Bool
deriving DecidableEq, Repr

/-- Mirror of `RepeatMode` from src/models/mod.rs. -/
inductive RepeatMode where
  | Off
  | One
  | All
deriving DecidableEq, Repr

/-- Mirror of `PlaybackState` from src/models/mod.rs. -/
structure PlaybackState where
  current_track : Option Track
  queue : List Track
  queue_index : Nat
  is_playing : Bool
  volume : Nat
  position : Nat
  shuffle : Bool
  «repeat» : RepeatMode
deriving DecidableEq, Repr

/-- The derived `PlaybackState::default()` from src/models/mod.rs. -/
def PlaybackState.default : PlaybackState where
  current_track := none
  queue := []
  queue_index := 0
  is_playing := false
  volume := 0
  position := 0
  shuffle := false
  «repeat» := RepeatMode.Off

/-- Mirror of `PlaybackState::new()` from src/models/mod.rs: default with volume 80. -/
def PlaybackState.new : PlaybackState :=
  { PlaybackState.default with volume := 80 }

/-- Mirror of `AudioCommand` from src/daemon/mod.rs.  The reply channels carried by
`CheckFinished`/`GetPosition` are dropped; replies are modelled as explicit
parameters of the monitor step below. -/
inductive AudioCommand where
  | Play (track : Track)
  | Pause
  | Resume
  | Stop
  | SetVolume (level : Nat)
  | Seek (position : Nat)
  | CheckFinished
  | GetPosition
deriving DecidableEq, Repr

/-- Mirror of `DaemonCommand` from src/ipc/mod.rs. -/
inductive DaemonCommand where
  | Play (track : Track)
  | PlayQueue (tracks : List Track) (start_index : Nat)
  | Pause
  | Resume
  | Stop
  | Next
  | Previous
  | Seek (position : Nat)
  | SetVolume (volume : Nat)
  | SetShuffle (enabled : Bool)
  | SetRepeat (mode : RepeatMode)
  | QueueAdd (track : Track)
  | QueueClear
  | GetStatus
  | Shutdown
deriving DecidableEq, Repr

/-- Mirror of `DaemonResponse` from src/ipc/mod.rs. -/
inductive DaemonResponse where
  | Ok
  | Status (state : PlaybackState)
  | Error (message : String)
deriving DecidableEq, Repr

/-- The error message the dispatcher returns for Next/Previous/PlayQueue on
an empty queue. -/
def queueEmptyMsg : String :=
  "Queue is empty"

/-- Placeholder used with `List.getD` where the Rust code indexes `s.queue[i]`
with `i` provably in bounds (Rust would panic out of bounds; every use below is
in range, as the invariant theorems show). -/
def defaultTrack : Track where
  id := ""
  url := ""
  title := ""
  «alias» := none
  duration := 0
  added_at := ""
  file_path := ""
  available := true

/-- Mirror of `handle_command` from src/daemon/mod.rs (lines 431-571).  Returns the
updated shared state, the list of `AudioCommand`s sent to the audio thread,
and the response.  `rand` models `RandomState::new().build_hasher().finish()
as usize`, the value drawn in the shuffle branch of `Next`.  The mpsc send to
the audio thread fails only if the receiver thread has exited; it is modelled
as succeeding (the `Error("Audio thread not running")` branches are the send
failure paths).  `Shutdown` additionally clears the `running` flag, which is
not part of `PlaybackState`. -/
def handle_command (command : DaemonCommand) (s : PlaybackState) (rand : Nat) :
    PlaybackState × List AudioCommand × DaemonResponse :=
  match command with
  | DaemonCommand.Play track =>
      (s, [AudioCommand.Play track], DaemonResponse.Ok)
  | DaemonCommand.PlayQueue tracks start_index =>
      if tracks.isEmpty then
        (s, [], DaemonResponse.Error queueEmptyMsg)
      else
        let idx := min start_index (tracks.length - 1)
        let track := tracks.getD idx defaultTrack
        ({ s with queue := tracks, queue_index := idx },
         [AudioCommand.Play track], DaemonResponse.Ok)
  | DaemonCommand.Pause => (s, [AudioCommand.Pause], DaemonResponse.Ok)
  | DaemonCommand.Resume => (s, [AudioCommand.Resume], DaemonResponse.Ok)
  | DaemonCommand.Stop => (s, [AudioCommand.Stop], DaemonResponse.Ok)
  | DaemonCommand.Next =>
      if s.queue.isEmpty then
        (s, [], DaemonResponse.Error queueEmptyMsg)
      else
        let next_idx :=
          if s.shuffle then rand % s.queue.length
          else (s.queue_index + 1) % s.queue.length
        if !s.shuffle && next_idx == 0 && s.«repeat» == RepeatMode.Off then
          ({ s with is_playing := false, current_track := none },
           [], DaemonResponse.Ok)
        else
          ({ s with queue_index := next_idx },
           [AudioCommand.Play (s.queue.getD next_idx defaultTrack)],
           DaemonResponse.Ok)
  | DaemonCommand.Previous =>
      if s.queue.isEmpty then
        (s, [], DaemonResponse.Error queueEmptyMsg)
      else
        let prev_idx :=
          if s.queue_index == 0 then s.queue.length - 1 else s.queue_index - 1
        ({ s with queue_index := prev_idx },
         [AudioCommand.Play (s.queue.getD prev_idx defaultTrack)],
         DaemonResponse.Ok)
  | DaemonCommand.Seek position =>
      (s, [AudioCommand.Seek position], DaemonResponse.Ok)
  | DaemonCommand.SetVolume volume =>
      (s, [AudioCommand.SetVolume volume], DaemonResponse.Ok)
  | DaemonCommand.SetShuffle enabled =>
      ({ s with shuffle := enabled }, [], DaemonResponse.Ok)
  | DaemonCommand.SetRepeat mode =>
      ({ s with «repeat» := mode }, [], DaemonResponse.Ok)
  | DaemonCommand.QueueAdd track =>
      ({ s with queue := s.queue ++ [track] }, [], DaemonResponse.Ok)
  | DaemonCommand.QueueClear =>
      ({ s with queue := [], queue_index := 0 }, [], DaemonResponse.Ok)
  | DaemonCommand.GetStatus =>
      (s, [], DaemonResponse.Status s)
  | DaemonCommand.Shutdown =>
      (s, [AudioCommand.Stop], DaemonResponse.Ok)

/-- One iteration of the `run_audio_thread` consume loop from
src/daemon/mod.rs (lines 308-363), processing one received `AudioCommand`.
`playerOk` models whether `AudioPlayer::new()` succeeded at thread start (if
not, commands are drained without effect); `playOk` models the result of
`p.play_file(path)`; `seekOk` models the result of `p.seek(duration)`.
`CheckFinished`/`GetPosition` only post replies and leave state unchanged. -/
def run_audio_thread_step (playerOk playOk seekOk : Bool)
    (cmd : AudioCommand) (s : PlaybackState) : PlaybackState :=
  if !playerOk then s
  else
    match cmd with
    | AudioCommand.Play track =>
        if playOk then
          { s with current_track := some track, is_playing := true, position := 0 }
        else
          { s with is_playing := false }
    | AudioCommand.Pause => { s with is_playing := false }
    | AudioCommand.Resume => { s with is_playing := true }
    | AudioCommand.Stop =>
        { s with is_playing := false, current_track := none, position := 0 }
    | AudioCommand.SetVolume vol => { s with volume := vol }
    | AudioCommand.Seek position =>
        if seekOk then { s with position := position } else s
    | AudioCommand.CheckFinished => s
    | AudioCommand.GetPosition => s

/-- The clamp the audio collaborator applies internally:
`AudioPlayer::set_volume` in src/audio/mod.rs does `let vol = volume.min(100)`
before storing and applying to the sink. -/
def audio_player_applied_volume (volume : Nat) : Nat :=
  min volume 100

/-- One tick of `playback_monitor` from src/daemon/mod.rs (lines 366-407).
`posReply` models the bounded 100ms wait for the `GetPosition` reply (`none`
is a timeout, skipping the position update); `finished` models the value of
the `finished` binding — the `CheckFinished` reply with timeout defaulting
to `false`.  Returns the updated state and the `AudioCommand`s sent.  When
the track is reported finished the monitor stops playback; it never advances
the queue and never sends `Play`. -/
def playback_monitor_tick (finished : Bool) (posReply : Option Nat)
    (s : PlaybackState) : PlaybackState × List AudioCommand :=
  let should_check := s.is_playing && s.current_track.isSome
  if !should_check then (s, [])
  else
    let s1 :=
      match posReply with
      | some pos => { s with position := pos }
      | none => s
    let sent := [AudioCommand.GetPosition, AudioCommand.CheckFinished]
    if finished then
      ({ s1 with is_playing := false, current_track := none, position := 0 }, sent)
    else
      (s1, sent)

/-! ## IPC codec (src/ipc/mod.rs)

Requests and responses cross the socket as one `serde_json` line each
(`serde_json::to_string` + `writeln`, `read_line` + `serde_json::from_str`).
The codec is modelled at the level of serde's JSON data model: `Json` below is
the JSON value tree, encoding follows serde's derived `Serialize` for these
types (externally tagged enums, structs as objects in declaration order,
`Option` as null-or-value, `Uuid`/`DateTime<Utc>` as strings), and decoding
follows the derived `Deserialize` restricted to canonically encoded values. -/

/-- JSON values.  All numeric fields of these messages are unsigned integers
(`u8`, `u64`, `usize`), so numbers are `Nat`. -/
inductive Json where
  | null
  | bool (b : Bool)
  | num (n : Nat)
  | str (s : String)
  | arr (elems : List Json)
  | obj (fields : List (String × Json))

/-- serde encoding of `Option<String>`. -/
def encodeOptString : Option String → Json
  | none => Json.null
  | some s => Json.str s

/-- serde decoding of `Option<String>` (canonical values). -/
def decodeOptString : Json → Option (Option String)
  | Json.null => some none
  | Json.str s => some (some s)
  | _ => none

/-- serde encoding of `Track` (a struct: object in field-declaration order). -/
def encodeTrack (t : Track) : Json :=
  Json.obj
    [("id", Json.str t.id),
     ("url", Json.str t.url),
     ("title", Json.str t.title),
     ("alias", encodeOptString t.«alias»),
     ("duration", Json.num t.duration),
     ("added_at", Json.str t.added_at),
     ("file_path", Json.str t.file_path),
     ("available", Json.bool t.available)]

/-- serde decoding of `Track` (canonical values). -/
def decodeTrack : Json → Option Track
  | Json.obj
      [("id", Json.str id), ("url", Json.str url), ("title", Json.str title),
       ("alias", a), ("duration", Json.num duration),
       ("added_at", Json.str added_at), ("file_path", Json.str file_path),
       ("available", Json.bool available)] =>
      match decodeOptString a with
      | some al =>
          some { id := id, url := url, title := title, «alias» := al,
                 duration := duration, added_at := added_at,
                 file_path := file_path, available := available }
      | none => none
  | _ => none

/-- serde encoding of `Vec<Track>`. -/
def encodeTracks (ts : List Track) : List Json :=
  ts.map encodeTrack

/-- serde decoding of `Vec<Track>` (canonical values). -/
def decodeTracks : List Json → Option (List Track)
  | [] => some []
  | j :: js =>
      match decodeTrack j, decodeTracks js with
      | some t, some ts => some (t :: ts)
      | _, _ => none

/-- serde encoding of `Option<Track>`. -/
def encodeOptTrack : Option Track → Json
  | none => Json.null
  | some t => encodeTrack t

/-- serde decoding of `Option<Track>` (canonical values). -/
def decodeOptTrack : Json → Option (Option Track)
  | Json.null => some none
  | j => match decodeTrack j with
      | some t => some (some t)
      | none => none

/-- The serde tag string of each `RepeatMode` unit variant. -/
def repeatModeTag : RepeatMode → String
  | RepeatMode.Off => "Off"
  | RepeatMode.One => "One"
  | RepeatMode.All => "All"

/-- serde encoding of `RepeatMode` (unit variants encode as tag strings). -/
def encodeRepeatMode (m : RepeatMode) : Json :=
  Json.str (repeatModeTag m)

/-- serde decoding of `RepeatMode`. -/
def decodeRepeatMode : Json → Option RepeatMode
  | Json.str tag =>
      if tag = "Off" then some RepeatMode.Off
      else if tag = "One" then some RepeatMode.One
      else if tag = "All" then some RepeatMode.All
      else none
  | _ => none

/-- serde encoding of `PlaybackState`. -/
def encodePlaybackState (s : PlaybackState) : Json :=
  Json.obj
    [("current_track", encodeOptTrack s.current_track),
     ("queue", Json.arr (encodeTracks s.queue)),
     ("queue_index", Json.num s.queue_index),
     ("is_playing", Json.bool s.is_playing),
     ("volume", Json.num s.volume),
     ("position", Json.num s.position),
     ("shuffle", Json.bool s.shuffle),
     ("repeat", encodeRepeatMode s.«repeat»)]

/-- serde decoding of `PlaybackState` (canonical values). -/
def decodePlaybackState : Json → Option PlaybackState
  | Json.obj
      [("current_track", ct), ("queue", Json.arr q),
       ("queue_index", Json.num queue_index),
       ("is_playing", Json.bool is_playing), ("volume", Json.num volume),
       ("position", Json.num position), ("shuffle", Json.bool shuffle),
       ("repeat", r)] =>
      match decodeOptTrack ct, decodeTracks q, decodeRepeatMode r with
      | some current_track, some queue, some rep =>
          some { current_track := current_track, queue := queue,
                 queue_index := queue_index, is_playing := is_playing,
                 volume := volume, position := position, shuffle := shuffle,
                 «repeat» := rep }
      | _, _, _ => none
  | _ => none

/-- serde encoding of `DaemonCommand` (externally tagged enum: unit variants
as strings, struct variants as a one-key object holding the field object). -/
def encodeDaemonCommand : DaemonCommand → Json
  | DaemonCommand.Play track =>
      Json.obj [("Play", Json.obj [("track", encodeTrack track)])]
  | DaemonCommand.PlayQueue tracks start_index =>
      Json.obj [("PlayQueue",
        Json.obj [("tracks", Json.arr (encodeTracks tracks)),
                  ("start_index", Json.num start_index)])]
  | DaemonCommand.Pause => Json.str ("Pause")
  | DaemonCommand.Resume => Json.str ("Resume")
  | DaemonCommand.Stop => Json.str ("Stop")
  | DaemonCommand.Next => Json.str ("Next")
  | DaemonCommand.Previous => Json.str ("Previous")
  | DaemonCommand.Seek position =>
      Json.obj [("Seek", Json.obj [("position", Json.num position)])]
  | DaemonCommand.SetVolume volume =>
      Json.obj [("SetVolume", Json.obj [("volume", Json.num volume)])]
  | DaemonCommand.SetShuffle enabled =>
      Json.obj [("SetShuffle", Json.obj [("enabled", Json.bool enabled)])]
  | DaemonCommand.SetRepeat mode =>
      Json.obj [("SetRepeat", Json.obj [("mode", encodeRepeatMode mode)])]
  | DaemonCommand.QueueAdd track =>
      Json.obj [("QueueAdd", Json.obj [("track", encodeTrack track)])]
  | DaemonCommand.QueueClear => Json.str ("QueueClear")
  | DaemonCommand.GetStatus => Json.str ("GetStatus")
  | DaemonCommand.Shutdown => Json.str ("Shutdown")

/-- serde decoding of the unit variants of `DaemonCommand` (encoded as bare
tag strings). -/
def decodeCommandTag (tag : String) : Option DaemonCommand :=
  if tag = "Pause" then some DaemonCommand.Pause
  else if tag = "Resume" then some DaemonCommand.Resume
  else if tag = "Stop" then some DaemonCommand.Stop
  else if tag = "Next" then some DaemonCommand.Next
  else if tag = "Previous" then some DaemonCommand.Previous
  else if tag = "QueueClear" then some DaemonCommand.QueueClear
  else if tag = "GetStatus" then some DaemonCommand.GetStatus
  else if tag = "Shutdown" then some DaemonCommand.Shutdown
  else none

/-- serde decoding of the payload-carrying variants of `DaemonCommand`
(encoded as a one-key object: tag to field object). -/
def decodeCommandPayload (tag : String) (payload : Json) : Option DaemonCommand :=
  if tag = "Play" then
    match payload with
    | Json.obj [("track", j)] => Option.map DaemonCommand.Play (decodeTrack j)
    | _ => none
  else if tag = "PlayQueue" then
    match payload with
    | Json.obj [("tracks", Json.arr js), ("start_index", Json.num i)] =>
        Option.map (fun ts => DaemonCommand.PlayQueue ts i) (decodeTracks js)
    | _ => none
  else if tag = "Seek" then
    match payload with
    | Json.obj [("position", Json.num p)] => some (DaemonCommand.Seek p)
    | _ => none
  else if tag = "SetVolume" then
    match payload with
    | Json.obj [("volume", Json.num v)] => some (DaemonCommand.SetVolume v)
    | _ => none
  else if tag = "SetShuffle" then
    match payload with
    | Json.obj [("enabled", Json.bool b)] => some (DaemonCommand.SetShuffle b)
    | _ => none
  else if tag = "SetRepeat" then
    match payload with
    | Json.obj [("mode", m)] =>
        Option.map DaemonCommand.SetRepeat (decodeRepeatMode m)
    | _ => none
  else if tag = "QueueAdd" then
    match payload with
    | Json.obj [("track", j)] => Option.map DaemonCommand.QueueAdd (decodeTrack j)
    | _ => none
  else none

/-- serde decoding of `DaemonCommand` (canonical values): externally tagged —
a bare string is a unit variant, a one-key object is a variant with fields. -/
def decodeDaemonCommand : Json → Option DaemonCommand
  | Json.str tag => decodeCommandTag tag
  | Json.obj [(tag, payload)] => decodeCommandPayload tag payload
  | _ => none

/-- serde encoding of `DaemonResponse` (externally tagged: `Ok` as a string,
newtype variants `Status`/`Error` as one-key objects holding the value). -/
def encodeDaemonResponse : DaemonResponse → Json
  | DaemonResponse.Ok => Json.str ("Ok")
  | DaemonResponse.Status s => Json.obj [("Status", encodePlaybackState s)]
  | DaemonResponse.Error m => Json.obj [("Error", Json.str m)]

/-- serde decoding of `DaemonResponse` (canonical values). -/
def decodeDaemonResponse : Json → Option DaemonResponse
  | Json.str ("Ok") => some DaemonResponse.Ok
  | Json.obj [("Status", j)] =>
      match decodePlaybackState j with
      | some s => some (DaemonResponse.Status s)
      | none => none
  | Json.obj [("Error", Json.str m)] =>
      some (DaemonResponse.Error m)
  | _ => none

/-! ## Codec round-trip lemmas -/

lemma decodeOptString_encodeOptString (o : Option String) :
    decodeOptString (encodeOptString o) = some o := by
  cases o <;> rfl

lemma decodeTrack_encodeTrack (t : Track) :
    decodeTrack (encodeTrack t) = some t := by
  cases t with
  | mk id url title al duration added_at file_path available => cases al <;> rfl

lemma decodeTracks_encodeTracks (ts : List Track) :
    decodeTracks (encodeTracks ts) = some ts := by
  induction ts with
  | nil => rfl
  | cons t ts ih =>
      simp only [encodeTracks, List.map_cons] at ih ⊢
      simp [decodeTracks, decodeTrack_encodeTrack, ih]

lemma decodeOptTrack_encodeOptTrack (o : Option Track) :
    decodeOptTrack (encodeOptTrack o) = some o := by
  cases o with
  | none => rfl
  | some t =>
      cases t with
      | mk id url title al duration added_at file_path available =>
          cases al <;> rfl

lemma decodeRepeatMode_encodeRepeatMode (m : RepeatMode) :
    decodeRepeatMode (encodeRepeatMode m) = some m := by
  cases m <;> rfl

lemma decodePlaybackState_encodePlaybackState (s : PlaybackState) :
    decodePlaybackState (encodePlaybackState s) = some s := by
  cases s with
  | mk ct q qi ip v p sh r =>
      simp [encodePlaybackState, decodePlaybackState,
            decodeOptTrack_encodeOptTrack, decodeTracks_encodeTracks,
            decodeRepeatMode_encodeRepeatMode]

/-- C8: for every request value (all `DaemonCommand` variants including their
`Track` payloads) and every response value (`Ok`, `Status`, `Error`), encoding
to the wire format and then decoding yields a value equal to the original:
decode after encode is the identity on the serde JSON data model carried by
the newline-delimited frames. -/
theorem c8_encode_decode_roundtrip :
    (∀ c : DaemonCommand, decodeDaemonCommand (encodeDaemonCommand c) = some c)
    ∧ (∀ r : DaemonResponse,
        decodeDaemonResponse (encodeDaemonResponse r) = some r) := by
  constructor
  · intro c
    cases c with
    | Play t => simp [encodeDaemonCommand, decodeDaemonCommand,
                      decodeCommandPayload, decodeTrack_encodeTrack]
    | PlayQueue ts i => simp [encodeDaemonCommand, decodeDaemonCommand,
                              decodeCommandPayload, decodeTracks_encodeTracks]
    | Seek p => rfl
    | SetVolume v => rfl
    | SetShuffle b => rfl
    | SetRepeat m => cases m <;> rfl
    | QueueAdd t => simp [encodeDaemonCommand, decodeDaemonCommand,
                          decodeCommandPayload, decodeTrack_encodeTrack]
    | _ => rfl
  · intro r
    cases r with
    | Ok => rfl
    | Status s => simp [encodeDaemonResponse, decodeDaemonResponse,
                        decodePlaybackState_encodePlaybackState]
    | Error m => rfl

/-! ## Concrete fixtures for scenario claims -/

/-- A concrete track used by the scenario claims ("A"). -/
def trackA : Track where
  id := "00000000-0000-0000-0000-00000000000a"
  url := "https://example.com/a"
  title := "A"
  «alias» := none
  duration := 100
  added_at := "2024-01-01T00:00:00Z"
  file_path := "/music/a.mp3"
  available := true

/-- A concrete track used by the scenario claims ("B"). -/
def trackB : Track :=
  { trackA with id := "00000000-0000-0000-0000-00000000000b",
                url := "https://example.com/b", title := "B",
                file_path := "/music/b.mp3" }

/-- A concrete track used by the scenario claims ("C"). -/
def trackC : Track :=
  { trackA with id := "00000000-0000-0000-0000-00000000000c",
                url := "https://example.com/c", title := "C",
                file_path := "/music/c.mp3" }

/-- The C1 scenario state: queue=[A,B,C], queue_index=0, repeat=Off,
shuffle=false, playback in progress on track A. -/
def c1_state : PlaybackState where
  current_track := some trackA
  queue := [trackA, trackB, trackC]
  queue_index := 0
  is_playing := true
  volume := 80
  position := 0
  shuffle := false
  «repeat» := RepeatMode.Off

/-- The C2 counterexample state: queue=[A,B,C] at the end-of-queue boundary
(queue_index=2), repeat=Off, shuffle=false, playing track C. -/
def c2_state : PlaybackState :=
  { c1_state with current_track := some trackC, queue_index := 2 }

/-- A state away from the boundary used to witness the amended C2:
queue=[A,B,C], queue_index=0, repeat=Off, shuffle=false. -/
def c2w_state : PlaybackState := c1_state

/-- The C3 scenario state: repeat=One, playing track A from queue=[A]. -/
def c3_state : PlaybackState :=
  { c1_state with queue := [trackA], «repeat» := RepeatMode.One }

/-! ## Claim theorems -/

/-- C5: a `PlayQueue` request whose track list is empty returns an `Error`
response and leaves every field of the shared `PlaybackState` unchanged —
the state is returned as-is and no `AudioCommand` is enqueued. -/
theorem c5_playqueue_empty_is_pure_error
    (s : PlaybackState) (start_index rand : Nat) :
    handle_command (DaemonCommand.PlayQueue [] start_index) s rand
      = (s, [], DaemonResponse.Error queueEmptyMsg) := rfl

/-- C6: when the audio worker processes `Play(track)` with the player
initialized: on `play_file` success it sets `current_track = some track`,
`is_playing = true` and `position = 0` in one state update; on failure it
sets `is_playing = false` and leaves `current_track` unchanged; and the
dispatcher's response to the original `Play` caller is `Ok` regardless
(fire-and-forget — no error propagates back). -/
theorem c6_worker_play_success_and_failure
    (s : PlaybackState) (t : Track) (seekOk : Bool) (rand : Nat) :
    run_audio_thread_step true true seekOk (AudioCommand.Play t) s
      = { s with current_track := some t, is_playing := true, position := 0 }
    ∧ run_audio_thread_step true false seekOk (AudioCommand.Play t) s
      = { s with is_playing := false }
    ∧ (run_audio_thread_step true false seekOk (AudioCommand.Play t) s).current_track
      = s.current_track
    ∧ (handle_command (DaemonCommand.Play t) s rand).2.2 = DaemonResponse.Ok :=
  ⟨rfl, rfl, rfl, rfl⟩

/-- C9: a `PlayQueue` request with a non-empty track list of length N and any
`start_index` (including out-of-range ones) clamps the index: the queue is
replaced by the given list, `queue_index` becomes `min start_index (N-1)`,
`Play` is enqueued for the track at that clamped index, and the response is
`Ok`, not an error. -/
theorem c9_playqueue_clamps_start_index
    (t : Track) (ts : List Track) (start_index rand : Nat) (s : PlaybackState) :
    handle_command (DaemonCommand.PlayQueue (t :: ts) start_index) s rand
      = ({ s with queue := t :: ts,
                  queue_index := min start_index ts.length },
         [AudioCommand.Play
            ((t :: ts).getD (min start_index ts.length) defaultTrack)],
         DaemonResponse.Ok) := by
  simp [handle_command]

/-- C10: the audio worker processes `Resume` (player initialized) by setting
`is_playing = true` unconditionally — in particular also from a state with
`current_track = none` and an empty queue — and the dispatcher forwards
`Resume` without inspecting the state. -/
theorem c10_resume_sets_playing_unconditionally
    (s : PlaybackState) (playOk seekOk : Bool) (rand : Nat) :
    run_audio_thread_step true playOk seekOk AudioCommand.Resume s
      = { s with is_playing := true }
    ∧ (run_audio_thread_step true playOk seekOk AudioCommand.Resume
         { PlaybackState.new with current_track := none, queue := [] }).is_playing
        = true
    ∧ handle_command DaemonCommand.Resume s rand
      = (s, [AudioCommand.Resume], DaemonResponse.Ok) :=
  ⟨rfl, rfl, rfl⟩

/-- C4 counterexample: `SetVolume 200` (a valid `u8` level above 100) is
forwarded to the worker unclamped and stored into `PlaybackState.volume`
unclamped, so the stored volume exceeds 100 — refuting the claim that the
level is clamped into [0,100] before forwarding and before storing. -/
theorem c4_counterexample :
    (handle_command (DaemonCommand.SetVolume 200) PlaybackState.new 0).2.1
      = [AudioCommand.SetVolume 200]
    ∧ (run_audio_thread_step true true true (AudioCommand.SetVolume 200)
         PlaybackState.new).volume = 200
    ∧ ¬ ((run_audio_thread_step true true true (AudioCommand.SetVolume 200)
         PlaybackState.new).volume ≤ 100) :=
  ⟨rfl, rfl, by decide⟩

/-- C4 amended: the dispatcher forwards the raw `u8` level and the worker
stores it into `PlaybackState.volume` unchanged; the only clamp is inside the
audio-output collaborator, whose `set_volume` applies `min level 100` to the
device, so the device volume (but not the stored one) never exceeds 100. -/
theorem c4_amended_volume_unclamped_in_state
    (s : PlaybackState) (level rand : Nat) (playOk seekOk : Bool) :
    handle_command (DaemonCommand.SetVolume level) s rand
      = (s, [AudioCommand.SetVolume level], DaemonResponse.Ok)
    ∧ run_audio_thread_step true playOk seekOk (AudioCommand.SetVolume level) s
      = { s with volume := level }
    ∧ audio_player_applied_volume level = min level 100
    ∧ audio_player_applied_volume level ≤ 100 :=
  ⟨rfl, rfl, rfl, Nat.min_le_right level 100⟩

/-- C1 counterexample: in the scenario state (queue=[A,B,C], queue_index=0,
repeat=Off, shuffle=false, playing), the first automatic finish event does
not advance `queue_index` to 1 and does not enqueue `Play`: the monitor stops
playback immediately, so the claimed index sequence 1, 2 never occurs. -/
theorem c1_counterexample :
    (playback_monitor_tick true (some 10) c1_state).1.queue_index = 0
    ∧ ¬ ((playback_monitor_tick true (some 10) c1_state).1.queue_index = 1)
    ∧ (playback_monitor_tick true (some 10) c1_state).1.is_playing = false
    ∧ (playback_monitor_tick true (some 10) c1_state).1.current_track = none
    ∧ (playback_monitor_tick true (some 10) c1_state).2
        = [AudioCommand.GetPosition, AudioCommand.CheckFinished] :=
  ⟨rfl, by decide, rfl, rfl, rfl⟩

/-- C1 amended: a finish event detected by the monitor never advances the
queue: for any playing state it immediately stops playback — `is_playing`
becomes false, `current_track` is cleared, `position` resets to 0,
`queue_index` and `queue` are left unchanged — and the only `AudioCommand`s
sent are the `GetPosition`/`CheckFinished` queries, never `Play`; any later
tick on the stopped state does nothing. -/
theorem c1_amended_finish_stops_without_advance
    (s : PlaybackState) (t : Track) (posReply : Option Nat)
    (hp : s.is_playing = true) (ht : s.current_track = some t) :
    playback_monitor_tick true posReply s
      = ({ s with is_playing := false, current_track := none, position := 0 },
         [AudioCommand.GetPosition, AudioCommand.CheckFinished])
    ∧ ∀ (finished' : Bool) (posReply' : Option Nat),
        playback_monitor_tick finished' posReply'
            { s with is_playing := false, current_track := none, position := 0 }
          = ({ s with is_playing := false, current_track := none, position := 0 },
             []) := by
  constructor
  · cases posReply <;> simp [playback_monitor_tick, hp, ht]
  · intro finished' posReply'
    rfl

/-- C1 amended witness: the amended behavior evaluated on the concrete C1
scenario state. -/
theorem c1_amended_witness :
    c1_state.is_playing = true
    ∧ c1_state.current_track = some trackA
    ∧ (playback_monitor_tick true (some 10) c1_state
        = ({ c1_state with is_playing := false, current_track := none,
                           position := 0 },
           [AudioCommand.GetPosition, AudioCommand.CheckFinished])
       ∧ ∀ (finished' : Bool) (posReply' : Option Nat),
          playback_monitor_tick finished' posReply'
              { c1_state with is_playing := false, current_track := none,
                              position := 0 }
            = ({ c1_state with is_playing := false, current_track := none,
                               position := 0 }, [])) :=
  ⟨rfl, rfl, c1_amended_finish_stops_without_advance c1_state trackA (some 10) rfl rfl⟩

/-- C3 counterexample: with repeat=One, playing track A from queue=[A], an
automatic finish event does not replay the track: no `Play` is enqueued (the
monitor only sends its two queries) and playback stops with `current_track`
cleared. -/
theorem c3_counterexample :
    (playback_monitor_tick true none c3_state).1.current_track = none
    ∧ (playback_monitor_tick true none c3_state).1.is_playing = false
    ∧ (playback_monitor_tick true none c3_state).2
        = [AudioCommand.GetPosition, AudioCommand.CheckFinished] :=
  ⟨rfl, rfl, rfl⟩

/-- C3 amended: with repeat=One, an automatic finish event does leave
`queue_index` unchanged, but instead of re-enqueuing `Play` of the same track
it stops playback — the monitor ignores the repeat mode entirely and sends
only its `GetPosition`/`CheckFinished` queries. -/
theorem c3_amended_repeat_one_stops
    (s : PlaybackState) (t : Track) (posReply : Option Nat)
    (_hr : s.«repeat» = RepeatMode.One)
    (hp : s.is_playing = true) (ht : s.current_track = some t) :
    (playback_monitor_tick true posReply s).1.queue_index = s.queue_index
    ∧ (playback_monitor_tick true posReply s).1.is_playing = false
    ∧ (playback_monitor_tick true posReply s).1.current_track = none
    ∧ (playback_monitor_tick true posReply s).2
        = [AudioCommand.GetPosition, AudioCommand.CheckFinished] := by
  cases posReply <;> simp [playback_monitor_tick, hp, ht]

/-- C3 amended witness: the amended behavior evaluated on the concrete
repeat=One scenario state. -/
theorem c3_amended_witness :
    c3_state.«repeat» = RepeatMode.One
    ∧ c3_state.is_playing = true
    ∧ c3_state.current_track = some trackA
    ∧ ((playback_monitor_tick true none c3_state).1.queue_index
         = c3_state.queue_index
       ∧ (playback_monitor_tick true none c3_state).1.is_playing = false
       ∧ (playback_monitor_tick true none c3_state).1.current_track = none
       ∧ (playback_monitor_tick true none c3_state).2
           = [AudioCommand.GetPosition, AudioCommand.CheckFinished]) :=
  ⟨rfl, rfl, rfl, c3_amended_repeat_one_stops c3_state trackA none rfl rfl rfl⟩

/-- C2 counterexample: at the end-of-queue boundary (queue=[A,B,C],
queue_index=2, shuffle=false, repeat=Off, playing), manual `Next` does stop
playback: `queue_index` stays 2 instead of becoming `(2+1) mod 3 = 0`,
`is_playing` becomes false, `current_track` is cleared, and no `Play` is
enqueued — refuting "never stops playback". -/
theorem c2_counterexample :
    (handle_command DaemonCommand.Next c2_state 0).1.queue_index = 2
    ∧ ¬ ((handle_command DaemonCommand.Next c2_state 0).1.queue_index
          = (2 + 1) % 3)
    ∧ (handle_command DaemonCommand.Next c2_state 0).1.is_playing = false
    ∧ (handle_command DaemonCommand.Next c2_state 0).1.current_track = none
    ∧ (handle_command DaemonCommand.Next c2_state 0).2.1 = []
    ∧ (handle_command DaemonCommand.Next c2_state 0).2.2 = DaemonResponse.Ok := by
  refine ⟨rfl, by decide, rfl, rfl, rfl, rfl⟩

/-- C2 amended: on a non-empty queue, manual `Next` with shuffle on always
jumps to `rand mod N`; with shuffle off it computes `(i+1) mod N` and — when
that wraps to 0 and repeat=Off — stops playback (`is_playing` false,
`current_track` cleared, `queue_index` unchanged, nothing enqueued) instead
of playing; in every other case it sets `queue_index` to the computed index
and enqueues `Play` of that track. -/
theorem c2_amended_next_characterization
    (s : PlaybackState) (rand : Nat) (hne : s.queue ≠ []) :
    (s.shuffle = true →
      handle_command DaemonCommand.Next s rand
        = ({ s with queue_index := rand % s.queue.length },
           [AudioCommand.Play
              (s.queue.getD (rand % s.queue.length) defaultTrack)],
           DaemonResponse.Ok))
    ∧ (s.shuffle = false → (s.queue_index + 1) % s.queue.length = 0 →
        s.«repeat» = RepeatMode.Off →
        handle_command DaemonCommand.Next s rand
          = ({ s with is_playing := false, current_track := none },
             [], DaemonResponse.Ok))
    ∧ (s.shuffle = false →
        ((s.queue_index + 1) % s.queue.length ≠ 0
          ∨ s.«repeat» ≠ RepeatMode.Off) →
        handle_command DaemonCommand.Next s rand
          = ({ s with queue_index := (s.queue_index + 1) % s.queue.length },
             [AudioCommand.Play
                (s.queue.getD ((s.queue_index + 1) % s.queue.length)
                   defaultTrack)],
             DaemonResponse.Ok)) := by
  have hE : s.queue.isEmpty = false := by
    simpa [List.isEmpty_iff] using hne
  refine ⟨fun hsh => ?_, fun hsh h0 hOff => ?_, fun hsh hnot => ?_⟩
  · simp [handle_command, hE, hsh]
  · simp [handle_command, hE, hsh, h0, hOff]
  · rcases hnot with h0 | hOff
    · simp [handle_command, hE, hsh, h0]
    · cases hrep : s.«repeat» with
      | Off => exact absurd hrep hOff
      | One => simp [handle_command, hE, hsh, hrep]
      | All => simp [handle_command, hE, hsh, hrep]

/-- C2 amended witness: the amended `Next` behavior evaluated away from the
boundary — queue=[A,B,C], queue_index=0, shuffle=false, repeat=Off — where it
advances to index 1 and enqueues `Play` of track B. -/
theorem c2_amended_witness :
    c2w_state.queue ≠ []
    ∧ handle_command DaemonCommand.Next c2w_state 0
        = ({ c2w_state with queue_index := 1 },
           [AudioCommand.Play trackB], DaemonResponse.Ok) := by
  refine ⟨by decide, ?_⟩
  have h := (c2_amended_next_characterization c2w_state 0 (by decide)).2.2
    rfl (Or.inl (by decide))
  exact h

/-! ## Reachability and the queue-index invariant (C7) -/

/-- The queue/index well-formedness invariant of `PlaybackState`: an empty
queue keeps `queue_index` at 0 (its initial/cleared value), and a non-empty
queue keeps `queue_index` strictly below the queue length. -/
def QueueInv (s : PlaybackState) : Prop :=
  (s.queue = [] → s.queue_index = 0)
  ∧ (s.queue ≠ [] → s.queue_index < s.queue.length)

/-- States reachable from the daemon's initial state by any interleaving of
dispatcher commands, audio-worker steps and monitor ticks. -/
inductive Reachable : PlaybackState → Prop where
  | init : Reachable PlaybackState.new
  | dispatch (c : DaemonCommand) (rand : Nat) {s : PlaybackState} :
      Reachable s → Reachable (handle_command c s rand).1
  | audio (playerOk playOk seekOk : Bool) (cmd : AudioCommand)
      {s : PlaybackState} :
      Reachable s → Reachable (run_audio_thread_step playerOk playOk seekOk cmd s)
  | monitor (finished : Bool) (posReply : Option Nat) {s : PlaybackState} :
      Reachable s → Reachable (playback_monitor_tick finished posReply s).1

lemma queueInv_new : QueueInv PlaybackState.new :=
  ⟨fun _ => rfl, fun h => absurd rfl h⟩

lemma queueInv_handle_command (c : DaemonCommand) (s : PlaybackState)
    (rand : Nat) (h : QueueInv s) : QueueInv (handle_command c s rand).1 := by
  obtain ⟨h0, hlt⟩ := h
  cases c with
  | Play t => exact ⟨h0, hlt⟩
  | PlayQueue ts i =>
      cases ts with
      | nil => exact ⟨h0, hlt⟩
      | cons a as =>
          refine ⟨fun hq => absurd hq (by simp [handle_command]), fun _ => ?_⟩
          show min i as.length < as.length + 1
          exact Nat.lt_succ_of_le (Nat.min_le_right i as.length)
  | Pause => exact ⟨h0, hlt⟩
  | Resume => exact ⟨h0, hlt⟩
  | Stop => exact ⟨h0, hlt⟩
  | Next =>
      by_cases hE : s.queue.isEmpty
      · simp only [handle_command, hE, if_true, ite_true]
        exact ⟨h0, hlt⟩
      · have hne : s.queue ≠ [] := by
          intro hq
          rw [hq] at hE
          exact hE rfl
        have hlen : 0 < s.queue.length := List.length_pos.mpr hne
        by_cases hC : (!s.shuffle
            && ((if s.shuffle then rand % s.queue.length
                 else (s.queue_index + 1) % s.queue.length) == 0)
            && (s.«repeat» == RepeatMode.Off)) = true
        · simp only [handle_command, hE, Bool.false_eq_true, if_false, hC,
                     if_true]
          exact ⟨h0, hlt⟩
        · simp only [handle_command, hE, Bool.false_eq_true, if_false, hC]
          refine ⟨fun hq => absurd hq hne, fun _ => ?_⟩
          by_cases hsh : s.shuffle
          · simp only [hsh, if_true]
            exact Nat.mod_lt rand hlen
          · simp only [hsh, Bool.false_eq_true, if_false]
            exact Nat.mod_lt _ hlen
  | Previous =>
      by_cases hE : s.queue.isEmpty
      · simp only [handle_command, hE, if_true, ite_true]
        exact ⟨h0, hlt⟩
      · have hne : s.queue ≠ [] := by
          intro hq
          rw [hq] at hE
          exact hE rfl
        have hlen : 0 < s.queue.length := List.length_pos.mpr hne
        simp only [handle_command, hE, Bool.false_eq_true, if_false]
        refine ⟨fun hq => absurd hq hne, fun _ => ?_⟩
        by_cases hz : s.queue_index == 0
        · simp only [hz, if_true]
          omega
        · simp only [hz, Bool.false_eq_true, if_false]
          have := hlt hne
          omega
  | Seek p => exact ⟨h0, hlt⟩
  | SetVolume v => exact ⟨h0, hlt⟩
  | SetShuffle b => exact ⟨h0, hlt⟩
  | SetRepeat m => exact ⟨h0, hlt⟩
  | QueueAdd t =>
      refine ⟨fun hq => absurd hq (by simp [handle_command]), fun _ => ?_⟩
      show s.queue_index < (s.queue ++ [t]).length
      simp only [List.length_append, List.length_cons, List.length_nil]
      rcases eq_or_ne s.queue [] with hq | hq
      · have := h0 hq
        omega
      · have := hlt hq
        omega
  | QueueClear => exact ⟨fun _ => rfl, fun hq => absurd rfl hq⟩
  | GetStatus => exact ⟨h0, hlt⟩
  | Shutdown => exact ⟨h0, hlt⟩

lemma queueInv_run_audio_thread_step (playerOk playOk seekOk : Bool)
    (cmd : AudioCommand) (s : PlaybackState) (h : QueueInv s) :
    QueueInv (run_audio_thread_step playerOk playOk seekOk cmd s) := by
  cases playerOk <;> cases playOk <;> cases seekOk <;> cases cmd <;> exact h

lemma queueInv_playback_monitor_tick (finished : Bool) (posReply : Option Nat)
    (s : PlaybackState) (h : QueueInv s) :
    QueueInv (playback_monitor_tick finished posReply s).1 := by
  by_cases hc : (s.is_playing && s.current_track.isSome) = true
  · cases finished <;> cases posReply <;>
      simp only [playback_monitor_tick, hc, Bool.not_true, Bool.false_eq_true,
                 if_false] <;>
      exact h
  · simp only [playback_monitor_tick, Bool.not_eq_true] at hc ⊢
    simp only [hc, Bool.not_false, if_true]
    exact h

lemma queueInv_reachable {s : PlaybackState} (h : Reachable s) : QueueInv s := by
  induction h with
  | init => exact queueInv_new
  | dispatch c rand _ ih => exact queueInv_handle_command c _ rand ih
  | audio playerOk playOk seekOk cmd _ ih =>
      exact queueInv_run_audio_thread_step playerOk playOk seekOk cmd _ ih
  | monitor finished posReply _ ih =>
      exact queueInv_playback_monitor_tick finished posReply _ ih

/-- C7: starting from the initial `PlaybackState` and applying any sequence
of dispatcher commands (interleaved with audio-worker steps and monitor
ticks), every reachable state with a non-empty queue has
`queue_index < queue.length`; hence no `GetStatus` copy of such a state shows
`queue_index ≥ queue.length`. -/
theorem c7_queue_index_invariant (s : PlaybackState) (h : Reachable s)
    (hne : s.queue ≠ []) : s.queue_index < s.queue.length :=
  (queueInv_reachable h).2 hne

/-- C7 witness: the invariant applied to the concrete reachable state
obtained by one `QueueAdd` from the initial state. -/
theorem c7_queue_index_invariant_witness :
    Reachable (handle_command (DaemonCommand.QueueAdd trackA)
        PlaybackState.new 0).1
    ∧ (handle_command (DaemonCommand.QueueAdd trackA)
        PlaybackState.new 0).1.queue ≠ []
    ∧ (handle_command (DaemonCommand.QueueAdd trackA)
        PlaybackState.new 0).1.queue_index
      < (handle_command (DaemonCommand.QueueAdd trackA)
          PlaybackState.new 0).1.queue.length :=
  ⟨Reachable.dispatch (DaemonCommand.QueueAdd trackA) 0 Reachable.init,
   by decide,
   c7_queue_index_invariant _
     (Reachable.dispatch (DaemonCommand.QueueAdd trackA) 0 Reachable.init)
     (by decide)⟩

end Mixyt
